import Mathlib

/-!
# Verification of the trial-exit dashboard webhook functions

Shallow embedding of `functions/index.js`: the event classifier
(`classifyFromEvent`), the UTC cohort-key derivation (`msToDateKey`), the
app resolver (`resolveApp`), the cohort-counter transaction executed by the
webhook handler (`applyCohort`), and the webhook orchestration pipeline
(`processWebhook`).  JavaScript `null`/`undefined` string fields are
modelled as `Option String`, and JavaScript string truthiness (the empty
string is falsy) is made explicit in the `js*` helpers.  Counters are
integers; the derived rates are exact rationals, with `Math.round`
modelled as round-half-up.
-/

namespace TrialExit

/-- JavaScript truthiness of an optional string: `null`/`undefined` and the
empty string are falsy. -/
def jsTruthy : Option String → Bool
  | none => false
  | some s => !(s = "")

/-- JavaScript `a || b` on optional strings: returns `a` when truthy,
otherwise `b`. -/
def jsOr (a b : Option String) : Option String :=
  if jsTruthy a then a else b

/-- JavaScript `a || d` where the fallback `d` is a plain string. -/
def jsOrDefault (a : Option String) (d : String) : String :=
  match a with
  | none => d
  | some s => if s = "" then d else s

/-- The static app table `APP_SLUGS`: each slug with its recognized
identifier strings, in declared order. -/
def APP_SLUGS : List (String × List String) :=
  [("christian-daily-task",
     ["com.nicholasseither.christiandailytask", "cdt",
      "christian_daily_task", "christian-daily-task"]),
   ("girlwalk", ["com.tangentapps.girlwalk", "girlwalk", "girl_walk"]),
   ("girltalk", ["com.tangentapps.girltalk", "girltalk", "girl_talk"])]

/-- JavaScript `hay.includes(pat)`: substring containment on strings. -/
def strContains (hay pat : String) : Bool :=
  let h := hay.toList
  let p := pat.toList
  (List.range (h.length + 1)).any (fun i => (h.drop i).take p.length = p)

/-- `resolveApp(productId, appSlugHint)`: the URL-path hint wins when it is a
known slug; otherwise the lower-cased product id is tested for containment of
each app's identifier strings in declared order. -/
def resolveApp (productId : Option String) (appSlugHint : Option String) :
    Option String :=
  if jsTruthy appSlugHint ∧ APP_SLUGS.any (fun e => some e.1 = appSlugHint)
  then appSlugHint
  else
    let pid := (jsOrDefault productId "").toLower
    (APP_SLUGS.find? (fun e => e.2.any (fun p => strContains pid p))).map
      (fun e => e.1)

/-- `classifyFromEvent(eventType, cancelReason, periodType)`: the event
classification switch; `none` models the `null` returned for unknown event
types. -/
def classifyFromEvent (eventType cancelReason periodType : String) :
    Option String :=
  match eventType with
  | "INITIAL_PURCHASE" =>
      some (if periodType = "TRIAL" then "Still in Trial" else "Converted")
  | "RENEWAL" => some "Converted"
  | "CANCELLATION" =>
      if cancelReason = "BILLING_ERROR" ∨ cancelReason = "CUSTOMER_SUPPORT"
      then some "Billing Issue" else some "Cancelled"
  | "BILLING_ISSUE" => some "Billing Issue"
  | "EXPIRATION" => some "Cancelled"
  | "UNCANCELLATION" => some "Still in Trial"
  | _ => none

/-- Year-of-era, month and day from a day-of-era count (0 ≤ doe ≤ 146096):
the standard civil-from-days decomposition of the proleptic Gregorian
calendar used by the ECMAScript UTC accessors. -/
def civilOfDoe (doe : Nat) : Nat × Nat × Nat :=
  let yoe := (doe - doe / 1460 + doe / 36524 - doe / 146096) / 365
  let doy := doe - (365 * yoe + yoe / 4 - yoe / 100)
  let mp := (5 * doy + 2) / 153
  let d := doy - (153 * mp + 2) / 5 + 1
  let m := if mp < 10 then mp + 3 else mp - 9
  (yoe, m, d)

/-- Gregorian calendar components (year, month, day) of a day count since
the Unix epoch, as computed by the ECMAScript UTC accessors
`getUTCFullYear`/`getUTCMonth`/`getUTCDate` (proleptic Gregorian, UTC). -/
def civilFromDays (z : Int) : Int × Nat × Nat :=
  let z' := z + 719468
  let era : Int := Int.fdiv z' 146097
  let doe : Nat := (z' - era * 146097).toNat
  let c := civilOfDoe doe
  (((c.1 : Int) + era * 400) + (if c.2.1 ≤ 2 then 1 else 0), c.2.1, c.2.2)

/-- `String(x).padStart(2, "0")` for the (≤ 2 digit) month and day fields. -/
def pad2 (n : Nat) : String :=
  if n < 10 then "0" ++ toString n else toString n

/-- `msToDateKey(ms)`: `null` for falsy input (`null`/`0`), otherwise the
`y-m-day` string built from the UTC calendar components of the timestamp,
with month and day zero-padded to two digits. -/
def msToDateKey (ms : Option Int) : Option String :=
  match ms with
  | none => none
  | some v =>
      if v = 0 then none
      else
        let c := civilFromDays (Int.fdiv v 86400000)
        some (toString c.1 ++ "-" ++ pad2 c.2.1 ++ "-" ++ pad2 c.2.2)

/-- `Math.round`, modelled on exact rationals: round half-up,
`⌊q + 1/2⌋` (stated via the executable `Rat.floor`). -/
def roundHalfUp (q : ℚ) : ℤ := (q + 1 / 2).floor

/-- A cohort document: the five counters plus the three derived rates.
Counters are integers (so that non-negativity is a theorem, not a typing
artifact); rates are exact rationals modelling the JS number fields. -/
structure Cohort where
  total_trials : Int
  in_trial : Int
  converted : Int
  cancelled : Int
  billing_issue : Int
  conversion_rate : ℚ
  cancel_rate : ℚ
  billing_rate : ℚ
deriving DecidableEq, Repr

/-- The zeroed cohort record synthesized when the document is absent
(lines 228–235); the rate fields are set before every write, so their
initial value is irrelevant and taken as 0. -/
def cohortZero : Cohort :=
  { total_trials := 0, in_trial := 0, converted := 0, cancelled := 0,
    billing_issue := 0, conversion_rate := 0, cancel_rate := 0,
    billing_rate := 0 }

/-- Lines 237–240: `if (eventType === "INITIAL_PURCHASE" && !prevStatus)
data.total_trials += 1`. -/
def bumpTotal (eventType : String) (prevStatus : Option String)
    (c : Cohort) : Cohort :=
  if eventType = "INITIAL_PURCHASE" ∧ jsTruthy prevStatus = false then
    { c with total_trials := c.total_trials + 1 }
  else c

/-- Lines 242–246: decrement the bucket named by the previous status,
clamped at 0 via `Math.max`. -/
def decPrev (prevStatus : Option String) (c : Cohort) : Cohort :=
  if prevStatus = some "Still in Trial" then
    { c with in_trial := max 0 (c.in_trial - 1) }
  else if prevStatus = some "Converted" then
    { c with converted := max 0 (c.converted - 1) }
  else if prevStatus = some "Cancelled" then
    { c with cancelled := max 0 (c.cancelled - 1) }
  else if prevStatus = some "Billing Issue" then
    { c with billing_issue := max 0 (c.billing_issue - 1) }
  else c

/-- Lines 248–252: increment the bucket named by the new status. -/
def incNew (newStatus : String) (c : Cohort) : Cohort :=
  if newStatus = "Still in Trial" then
    { c with in_trial := c.in_trial + 1 }
  else if newStatus = "Converted" then
    { c with converted := c.converted + 1 }
  else if newStatus = "Cancelled" then
    { c with cancelled := c.cancelled + 1 }
  else if newStatus = "Billing Issue" then
    { c with billing_issue := c.billing_issue + 1 }
  else c

/-- Lines 254–258: `const t = data.total_trials || 1` and the three
`Math.round((bucket / t) * 10000) / 10000` rate fields, with the
floating-point expressions modelled as exact rationals. -/
def setRates (c : Cohort) : Cohort :=
  let t : Int := if c.total_trials = 0 then 1 else c.total_trials
  { c with
    conversion_rate := (roundHalfUp ((c.converted : ℚ) / (t : ℚ) * 10000) : ℚ) / 10000,
    cancel_rate := (roundHalfUp ((c.cancelled : ℚ) / (t : ℚ) * 10000) : ℚ) / 10000,
    billing_rate := (roundHalfUp ((c.billing_issue : ℚ) / (t : ℚ) * 10000) : ℚ) / 10000 }

/-- The body of the `runTransaction` callback (lines 224–261) applied to the
record read (or synthesized): total bump, previous-bucket decrement,
new-bucket increment, rate recomputation. -/
def applyCohort (eventType : String) (prevStatus : Option String)
    (newStatus : String) (c : Cohort) : Cohort :=
  setRates (incNew newStatus (decPrev prevStatus (bumpTotal eventType prevStatus c)))

/-- Sum of the four mutually exclusive bucket counters. -/
def sumBuckets (c : Cohort) : Int :=
  c.in_trial + c.converted + c.cancelled + c.billing_issue

/-- The four bucket counters are all non-negative. -/
def nonnegCounters (c : Cohort) : Prop :=
  0 ≤ c.in_trial ∧ 0 ≤ c.converted ∧ 0 ≤ c.cancelled ∧ 0 ≤ c.billing_issue

/-- The four recognized lifecycle status strings. -/
def knownStatus (s : String) : Prop :=
  s = "Still in Trial" ∨ s = "Converted" ∨ s = "Cancelled" ∨ s = "Billing Issue"

/-- The bucket counter matching a status string (0 for unrecognized). -/
def bucketOf (c : Cohort) (s : String) : Int :=
  if s = "Still in Trial" then c.in_trial
  else if s = "Converted" then c.converted
  else if s = "Cancelled" then c.cancelled
  else if s = "Billing Issue" then c.billing_issue
  else 0

/-- Cohort records reachable from `c0` by any finite sequence of webhook
cohort transactions, with arbitrary event types, previous statuses, and new
statuses. -/
inductive ReachableFrom (c0 : Cohort) : Cohort → Prop
  | refl : ReachableFrom c0 c0
  | step (et : String) (prev : Option String) (ns : String) {c : Cohort} :
      ReachableFrom c0 c → ReachableFrom c0 (applyCohort et prev ns c)

/-- Cohort records reachable from the zeroed record. -/
def Reachable (c : Cohort) : Prop := ReachableFrom cohortZero c

/-- Cohort records reachable from the zeroed record by transactions that are
consistent with the user records feeding them: each transaction either
observes no previous status and stems from an `INITIAL_PURCHASE` event (a
genuinely new trial), or moves a user whose previous status is one of the
four recognized ones and whose bucket currently counts them. -/
inductive ConsistentReachable : Cohort → Prop
  | init : ConsistentReachable cohortZero
  | stepNew (prev : Option String) (ns : String) {c : Cohort} :
      ConsistentReachable c → jsTruthy prev = false →
      ConsistentReachable (applyCohort "INITIAL_PURCHASE" prev ns c)
  | stepMove (et : String) (s ns : String) {c : Cohort} :
      ConsistentReachable c → knownStatus s → 1 ≤ bucketOf c s →
      ConsistentReachable (applyCohort et (some s) ns c)

/-- The user-document write of lines 207–216 (the fields derived from the
event; `updated_at` is a server-side timestamp and carries no event data). -/
structure UserWrite where
  status : String
  product : String
  trial_start_date : Option String
  last_event : Option String
deriving DecidableEq, Repr

/-- Lines 203–205: keep the stored `trial_start_date` when the user document
exists and the stored value is truthy, otherwise fall back to the date key
derived from the incoming event. -/
def trialStartDateOf (userExists : Bool) (stored trialDate : Option String) :
    Option String :=
  if userExists then jsOr stored trialDate else trialDate

/-- The JSON responses the handler can produce inside its `try` block:
`{status:"skipped"}` (200), the `{status:"error"}` 400 reply, and
`{status:"ok"}` (200). -/
inductive WebhookResponse
  | skipped (reason : String)
  | invalid (reason : String)
  | ok (app : String) (classification : String)
deriving DecidableEq, Repr

/-- The HTTP status code attached to each response (lines 167, 171–173,
183–185, 190–193, 267). -/
def httpStatus : WebhookResponse → Nat
  | .skipped _ => 200
  | .invalid _ => 400
  | .ok _ _ => 200

/-- The `status` field of the JSON body of each response. -/
def jsonStatus : WebhookResponse → String
  | .skipped _ => "skipped"
  | .invalid _ => "error"
  | .ok _ _ => "ok"

/-- The observable outcome of one webhook request: the response, the
user-document write if any, and — when the cohort transaction runs — the
cohort key together with the `(eventType, prevStatus, newStatus)` arguments
the transaction applies via `applyCohort`. -/
structure WebhookOutcome where
  response : WebhookResponse
  userWrite : Option UserWrite
  cohortTxn : Option (String × String × Option String × String)
deriving DecidableEq, Repr

/-- The incoming event object (either `body.event` or the body itself), with
each recognized field optional, mirroring the defensive extraction of lines
156–163. -/
structure WebhookEvent where
  type : Option String
  app_user_id : Option String
  original_app_user_id : Option String
  product_id : Option String
  period_type : Option String
  cancel_reason : Option String
  purchased_at_ms : Option Int
  environment : Option String

/-- The webhook handler's `try` block (lines 152–267) after method and
authorization checks: field extraction, sandbox skip, missing-user-id
rejection, app resolution, classification, user write, and the decision to
run the cohort transaction.  `pathSlug` models the first URL path segment;
`userExists`, `storedStatus`, `storedTrialStartDate` model the user document
read at lines 201–205.  An absent `event.type` falls through the
classification switch to its default, hence `none`. -/
def processWebhook (pathSlug : Option String) (userExists : Bool)
    (storedStatus storedTrialStartDate : Option String)
    (e : WebhookEvent) : WebhookOutcome :=
  let appUserId := jsOr e.app_user_id (jsOr e.original_app_user_id none)
  let productId := jsOrDefault e.product_id ""
  let periodType := jsOrDefault e.period_type ""
  let cancelReason := jsOrDefault e.cancel_reason ""
  let purchasedAtMs : Option Int :=
    match e.purchased_at_ms with | some 0 => none | x => x
  let environment := jsOrDefault e.environment "PRODUCTION"
  if environment = "SANDBOX" then ⟨.skipped "sandbox", none, none⟩
  else if jsTruthy appUserId = false then
    ⟨.invalid "missing app_user_id", none, none⟩
  else
    match resolveApp (some productId) pathSlug with
    | none => ⟨.skipped "unknown_app", none, none⟩
    | some slug =>
      match e.type with
      | none => ⟨.skipped "unhandled_event_type", none, none⟩
      | some et =>
        match classifyFromEvent et cancelReason periodType with
        | none => ⟨.skipped "unhandled_event_type", none, none⟩
        | some status =>
          let trialDate := msToDateKey purchasedAtMs
          let prevStatus := if userExists then storedStatus else none
          let tsd := trialStartDateOf userExists storedTrialStartDate trialDate
          ⟨.ok slug status,
           some ⟨status, productId, tsd, e.type⟩,
           match tsd with
           | none => none
           | some key =>
               if key = "" then none
               else some (key, et, prevStatus, status)⟩

/-- Cohort record after one `INITIAL_PURCHASE` trial-start transaction. -/
def cohortOneTrial : Cohort :=
  applyCohort "INITIAL_PURCHASE" none "Still in Trial" cohortZero

/-- Cohort record after an `INITIAL_PURCHASE` conversion followed by a
`RENEWAL` for a second user never seen before (no previous status): two
`Converted` users against a single counted trial. -/
def cohortOverConverted : Cohort :=
  applyCohort "RENEWAL" none "Converted"
    (applyCohort "INITIAL_PURCHASE" none "Converted" cohortZero)

/-- A production `RENEWAL` event carrying no user identifier. -/
def eventNoUser : WebhookEvent :=
  ⟨some "RENEWAL", none, none, some "com.tangentapps.girlwalk", none, none,
    some 1700000000000, none⟩

/-- A production `RENEWAL` event for user `u1` of the girlwalk app. -/
def eventRenewalU1 : WebhookEvent :=
  ⟨some "RENEWAL", some "u1", none, some "com.tangentapps.girlwalk", none, none,
    some 1700000000000, none⟩

/-- A sandbox `INITIAL_PURCHASE` trial event for user `u1`. -/
def eventSandboxTrial : WebhookEvent :=
  ⟨some "INITIAL_PURCHASE", some "u1", none, some "com.tangentapps.girlwalk",
    some "TRIAL", none, some 1700000000000, some "SANDBOX"⟩

/-! ## Counter-level characterization of the transaction pieces -/

@[simp] lemma bumpTotal_total (et : String) (prev : Option String) (c : Cohort) :
    (bumpTotal et prev c).total_trials =
      if et = "INITIAL_PURCHASE" ∧ jsTruthy prev = false
      then c.total_trials + 1 else c.total_trials := by
  unfold bumpTotal; split_ifs <;> rfl

@[simp] lemma bumpTotal_in_trial (et : String) (prev : Option String) (c : Cohort) :
    (bumpTotal et prev c).in_trial = c.in_trial := by
  unfold bumpTotal; split_ifs <;> rfl

@[simp] lemma bumpTotal_converted (et : String) (prev : Option String) (c : Cohort) :
    (bumpTotal et prev c).converted = c.converted := by
  unfold bumpTotal; split_ifs <;> rfl

@[simp] lemma bumpTotal_cancelled (et : String) (prev : Option String) (c : Cohort) :
    (bumpTotal et prev c).cancelled = c.cancelled := by
  unfold bumpTotal; split_ifs <;> rfl

@[simp] lemma bumpTotal_billing (et : String) (prev : Option String) (c : Cohort) :
    (bumpTotal et prev c).billing_issue = c.billing_issue := by
  unfold bumpTotal; split_ifs <;> rfl

@[simp] lemma decPrev_total (prev : Option String) (c : Cohort) :
    (decPrev prev c).total_trials = c.total_trials := by
  unfold decPrev; split_ifs <;> rfl

@[simp] lemma decPrev_in_trial (prev : Option String) (c : Cohort) :
    (decPrev prev c).in_trial =
      if prev = some "Still in Trial" then max 0 (c.in_trial - 1) else c.in_trial := by
  unfold decPrev; split_ifs <;> rfl

@[simp] lemma decPrev_converted (prev : Option String) (c : Cohort) :
    (decPrev prev c).converted =
      if prev = some "Converted" ∧ prev ≠ some "Still in Trial"
      then max 0 (c.converted - 1) else c.converted := by
  unfold decPrev; split_ifs <;> simp_all

@[simp] lemma decPrev_cancelled (prev : Option String) (c : Cohort) :
    (decPrev prev c).cancelled =
      if prev = some "Cancelled" ∧ prev ≠ some "Still in Trial" ∧ prev ≠ some "Converted"
      then max 0 (c.cancelled - 1) else c.cancelled := by
  unfold decPrev; split_ifs <;> simp_all

@[simp] lemma decPrev_billing (prev : Option String) (c : Cohort) :
    (decPrev prev c).billing_issue =
      if prev = some "Billing Issue" ∧ prev ≠ some "Still in Trial" ∧
         prev ≠ some "Converted" ∧ prev ≠ some "Cancelled"
      then max 0 (c.billing_issue - 1) else c.billing_issue := by
  unfold decPrev; split_ifs <;> simp_all

@[simp] lemma incNew_total (ns : String) (c : Cohort) :
    (incNew ns c).total_trials = c.total_trials := by
  unfold incNew; split_ifs <;> rfl

@[simp] lemma incNew_in_trial (ns : String) (c : Cohort) :
    (incNew ns c).in_trial =
      if ns = "Still in Trial" then c.in_trial + 1 else c.in_trial := by
  unfold incNew; split_ifs <;> rfl

@[simp] lemma incNew_converted (ns : String) (c : Cohort) :
    (incNew ns c).converted =
      if ns = "Converted" ∧ ns ≠ "Still in Trial"
      then c.converted + 1 else c.converted := by
  unfold incNew; split_ifs <;> simp_all

@[simp] lemma incNew_cancelled (ns : String) (c : Cohort) :
    (incNew ns c).cancelled =
      if ns = "Cancelled" ∧ ns ≠ "Still in Trial" ∧ ns ≠ "Converted"
      then c.cancelled + 1 else c.cancelled := by
  unfold incNew; split_ifs <;> simp_all

@[simp] lemma incNew_billing (ns : String) (c : Cohort) :
    (incNew ns c).billing_issue =
      if ns = "Billing Issue" ∧ ns ≠ "Still in Trial" ∧ ns ≠ "Converted" ∧ ns ≠ "Cancelled"
      then c.billing_issue + 1 else c.billing_issue := by
  unfold incNew; split_ifs <;> simp_all

@[simp] lemma setRates_total (c : Cohort) : (setRates c).total_trials = c.total_trials := rfl

@[simp] lemma setRates_in_trial (c : Cohort) : (setRates c).in_trial = c.in_trial := rfl

@[simp] lemma setRates_converted (c : Cohort) : (setRates c).converted = c.converted := rfl

@[simp] lemma setRates_cancelled (c : Cohort) : (setRates c).cancelled = c.cancelled := rfl

@[simp] lemma setRates_billing (c : Cohort) : (setRates c).billing_issue = c.billing_issue := rfl

lemma setRates_conversion_rate (c : Cohort) :
    (setRates c).conversion_rate =
      (roundHalfUp ((c.converted : ℚ) /
        (((if c.total_trials = 0 then 1 else c.total_trials) : Int) : ℚ) * 10000) : ℚ) / 10000 := rfl

lemma setRates_cancel_rate (c : Cohort) :
    (setRates c).cancel_rate =
      (roundHalfUp ((c.cancelled : ℚ) /
        (((if c.total_trials = 0 then 1 else c.total_trials) : Int) : ℚ) * 10000) : ℚ) / 10000 := rfl

lemma setRates_billing_rate (c : Cohort) :
    (setRates c).billing_rate =
      (roundHalfUp ((c.billing_issue : ℚ) /
        (((if c.total_trials = 0 then 1 else c.total_trials) : Int) : ℚ) * 10000) : ℚ) / 10000 := rfl

/-- The transaction changes `total_trials` by exactly 1 when the event is an
`INITIAL_PURCHASE` with no (falsy) previous status, and not at all
otherwise. -/
lemma applyCohort_total (et : String) (prev : Option String) (ns : String)
    (c : Cohort) :
    (applyCohort et prev ns c).total_trials =
      c.total_trials +
        (if et = "INITIAL_PURCHASE" ∧ jsTruthy prev = false then 1 else 0) := by
  simp only [applyCohort, setRates_total, incNew_total, decPrev_total, bumpTotal_total]
  split_ifs <;> omega

/-- One transaction preserves non-negativity of the four bucket counters. -/
lemma nonnegCounters_apply (et : String) (prev : Option String) (ns : String)
    {c : Cohort} (h : nonnegCounters c) :
    nonnegCounters (applyCohort et prev ns c) := by
  obtain ⟨h1, h2, h3, h4⟩ := h
  simp only [nonnegCounters, applyCohort, setRates_total, setRates_in_trial,
    setRates_converted, setRates_cancelled, setRates_billing, incNew_in_trial,
    incNew_converted, incNew_cancelled, incNew_billing, decPrev_in_trial,
    decPrev_converted, decPrev_cancelled, decPrev_billing, bumpTotal_in_trial,
    bumpTotal_converted, bumpTotal_cancelled, bumpTotal_billing]
  split_ifs <;> refine ⟨by omega, by omega, by omega, by omega⟩

/-! ## Invariants of reachable cohort records -/

lemma cohortZero_nonneg : nonnegCounters cohortZero :=
  ⟨le_rfl, le_rfl, le_rfl, le_rfl⟩

/-- Non-negativity of the buckets is preserved along any transaction
sequence. -/
lemma reachableFrom_nonneg {c0 c : Cohort} (h0 : nonnegCounters c0)
    (h : ReachableFrom c0 c) : nonnegCounters c := by
  induction h with
  | refl => exact h0
  | step et prev ns _ ih => exact nonnegCounters_apply et prev ns ih

/-- A falsy previous status (absent or empty) matches no decrement branch. -/
lemma decPrev_of_falsy {prev : Option String} (h : jsTruthy prev = false)
    (c : Cohort) : decPrev prev c = c := by
  match prev with
  | none => rfl
  | some s =>
      have hs : s = "" := by simpa [jsTruthy] using h
      subst hs; rfl

@[simp] lemma sumBuckets_setRates (c : Cohort) :
    sumBuckets (setRates c) = sumBuckets c := rfl

@[simp] lemma sumBuckets_bumpTotal (et : String) (prev : Option String)
    (c : Cohort) : sumBuckets (bumpTotal et prev c) = sumBuckets c := by
  simp [sumBuckets]

lemma sumBuckets_incNew (ns : String) (c : Cohort) :
    sumBuckets (incNew ns c) ≤ sumBuckets c + 1 := by
  simp only [sumBuckets, incNew_in_trial, incNew_converted, incNew_cancelled,
    incNew_billing]
  split_ifs <;> first | omega | simp_all

lemma jsTruthy_of_known {s : String} (hs : knownStatus s) :
    jsTruthy (some s) = true := by
  rcases hs with h | h | h | h <;> subst h <;> rfl

/-- Decrementing a recognized status whose bucket currently counts at least
one user lowers the bucket sum by exactly one (the clamp does not fire). -/
lemma sumBuckets_decPrev_known {s : String} (hs : knownStatus s) {c : Cohort}
    (hb : 1 ≤ bucketOf c s) :
    sumBuckets (decPrev (some s) c) = sumBuckets c - 1 := by
  rcases hs with h | h | h | h <;> subst h <;>
    simp [bucketOf, sumBuckets, decPrev_in_trial, decPrev_converted,
      decPrev_cancelled, decPrev_billing] at hb ⊢ <;>
    omega

@[simp] lemma bucketOf_bumpTotal (et : String) (prev : Option String)
    (c : Cohort) (s : String) : bucketOf (bumpTotal et prev c) s = bucketOf c s := by
  simp [bucketOf]

/-- The two-sided invariant of consistently reachable records: non-negative
buckets whose sum never exceeds `total_trials`. -/
def goodCohort (c : Cohort) : Prop :=
  nonnegCounters c ∧ sumBuckets c ≤ c.total_trials

/-- A genuinely-new-trial transaction preserves the invariant: the bucket
sum and `total_trials` both grow by at most (respectively exactly) one. -/
lemma goodCohort_stepNew {c : Cohort} (hg : goodCohort c) (prev : Option String)
    (ns : String) (hfalsy : jsTruthy prev = false) :
    goodCohort (applyCohort "INITIAL_PURCHASE" prev ns c) := by
  obtain ⟨hn, hs⟩ := hg
  refine ⟨nonnegCounters_apply _ _ _ hn, ?_⟩
  have htot := applyCohort_total "INITIAL_PURCHASE" prev ns c
  rw [if_pos ⟨rfl, hfalsy⟩] at htot
  calc sumBuckets (applyCohort "INITIAL_PURCHASE" prev ns c)
      = sumBuckets (incNew ns (decPrev prev (bumpTotal "INITIAL_PURCHASE" prev c))) := by
        rw [applyCohort, sumBuckets_setRates]
    _ = sumBuckets (incNew ns (bumpTotal "INITIAL_PURCHASE" prev c)) := by
        rw [decPrev_of_falsy hfalsy]
    _ ≤ sumBuckets (bumpTotal "INITIAL_PURCHASE" prev c) + 1 := sumBuckets_incNew _ _
    _ ≤ (applyCohort "INITIAL_PURCHASE" prev ns c).total_trials := by
        rw [sumBuckets_bumpTotal, htot]; omega

/-- A status-move transaction for a user currently counted in a recognized
bucket preserves the invariant: the decrement is not clamped, so the bucket
sum does not grow, and `total_trials` is untouched. -/
lemma goodCohort_stepMove {c : Cohort} (hg : goodCohort c) (et : String)
    {s : String} (ns : String) (hks : knownStatus s) (hb : 1 ≤ bucketOf c s) :
    goodCohort (applyCohort et (some s) ns c) := by
  obtain ⟨hn, hs⟩ := hg
  refine ⟨nonnegCounters_apply _ _ _ hn, ?_⟩
  have htot := applyCohort_total et (some s) ns c
  rw [if_neg (by simp [jsTruthy_of_known hks])] at htot
  calc sumBuckets (applyCohort et (some s) ns c)
      = sumBuckets (incNew ns (decPrev (some s) (bumpTotal et (some s) c))) := by
        rw [applyCohort, sumBuckets_setRates]
    _ ≤ sumBuckets (decPrev (some s) (bumpTotal et (some s) c)) + 1 :=
        sumBuckets_incNew _ _
    _ = sumBuckets (bumpTotal et (some s) c) - 1 + 1 := by
        rw [sumBuckets_decPrev_known hks (by simpa using hb)]
    _ ≤ (applyCohort et (some s) ns c).total_trials := by
        rw [sumBuckets_bumpTotal, htot]; omega

lemma consistent_good {c : Cohort} (h : ConsistentReachable c) : goodCohort c := by
  induction h with
  | init => exact ⟨cohortZero_nonneg, le_rfl⟩
  | stepNew prev ns _ hfalsy ih => exact goodCohort_stepNew ih prev ns hfalsy
  | stepMove et s ns _ hks hb ih => exact goodCohort_stepMove ih et ns hks hb

/-! ## Rate arithmetic -/

lemma roundHalfUp_eq_floor (q : ℚ) : roundHalfUp q = ⌊q + 1 / 2⌋ := by
  rw [roundHalfUp, Rat.floor_def', Rat.floor_def]

lemma roundHalfUp_nonneg {q : ℚ} (h : 0 ≤ q) : 0 ≤ roundHalfUp q := by
  rw [roundHalfUp_eq_floor]
  exact Int.le_floor.mpr (by push_cast; linarith)

lemma roundHalfUp_le {q : ℚ} {B : ℤ} (h : q ≤ B) : roundHalfUp q ≤ B := by
  rw [roundHalfUp_eq_floor]
  have h1 : ⌊q + 1 / 2⌋ ≤ ⌊(B : ℚ) + 1 / 2⌋ := Int.floor_le_floor (by linarith)
  have h2 : ⌊(B : ℚ) + 1 / 2⌋ = B := by
    rw [add_comm, Int.floor_add_int, Int.floor_eq_zero_iff.mpr (by constructor <;> norm_num)]
    omega
  omega

lemma roundHalfUp_eq {q : ℚ} {k : ℤ} (h1 : (k : ℚ) ≤ q + 1 / 2)
    (h2 : q + 1 / 2 < k + 1) : roundHalfUp q = k := by
  rw [roundHalfUp_eq_floor]
  exact Int.floor_eq_iff.mpr ⟨h1, h2⟩

/-- A rate `roundHalfUp(b/t·10⁴)/10⁴` with `0 ≤ b ≤ t` lies in `[0, 1]`. -/
lemma rateVal_bounds {b t : ℤ} (hb : 0 ≤ b) (hbt : b ≤ t) (ht : 1 ≤ t) :
    0 ≤ (roundHalfUp ((b : ℚ) / (t : ℚ) * 10000) : ℚ) / 10000 ∧
    (roundHalfUp ((b : ℚ) / (t : ℚ) * 10000) : ℚ) / 10000 ≤ 1 := by
  have ht0 : (0 : ℚ) < (t : ℚ) := by exact_mod_cast ht
  have hq0 : 0 ≤ (b : ℚ) / (t : ℚ) * 10000 :=
    mul_nonneg (div_nonneg (by exact_mod_cast hb) ht0.le) (by norm_num)
  have hq1 : (b : ℚ) / (t : ℚ) * 10000 ≤ ((10000 : ℤ) : ℚ) := by
    have hd : (b : ℚ) / (t : ℚ) ≤ 1 := (div_le_one ht0).mpr (by exact_mod_cast hbt)
    push_cast
    nlinarith
  have h0 := roundHalfUp_nonneg hq0
  have h1 := roundHalfUp_le hq1
  constructor
  · exact div_nonneg (by exact_mod_cast h0) (by norm_num)
  · rw [div_le_one (by norm_num)]
    exact_mod_cast h1

/-- A rate `roundHalfUp(b/t·10⁴)/10⁴` with `0 ≤ b` and `1 ≤ t` is
non-negative (no upper bound on `b` needed). -/
lemma rateVal_nonneg {b t : ℤ} (hb : 0 ≤ b) (ht : 1 ≤ t) :
    0 ≤ (roundHalfUp ((b : ℚ) / (t : ℚ) * 10000) : ℚ) / 10000 := by
  have ht0 : (0 : ℚ) < (t : ℚ) := by exact_mod_cast ht
  have hq0 : 0 ≤ (b : ℚ) / (t : ℚ) * 10000 :=
    mul_nonneg (div_nonneg (by exact_mod_cast hb) ht0.le) (by norm_num)
  exact div_nonneg (by exact_mod_cast roundHalfUp_nonneg hq0) (by norm_num)

/-- On non-negative `total_trials` the code's `total_trials || 1` agrees with
the spec's `max(total_trials, 1)`. -/
lemma t_eq_max {x : Int} (h : 0 ≤ x) : (if x = 0 then 1 else x) = max x 1 := by
  split_ifs <;> omega

lemma good_total_nonneg {c : Cohort} (hg : goodCohort c) : 0 ≤ c.total_trials := by
  obtain ⟨⟨h1, h2, h3, h4⟩, hs⟩ := hg
  simp only [sumBuckets] at hs
  omega

lemma good_bucket_facts {c : Cohort} (hg : goodCohort c) :
    (0 ≤ c.converted ∧ c.converted ≤ c.total_trials) ∧
    (0 ≤ c.cancelled ∧ c.cancelled ≤ c.total_trials) ∧
    (0 ≤ c.billing_issue ∧ c.billing_issue ≤ c.total_trials) := by
  obtain ⟨⟨h1, h2, h3, h4⟩, hs⟩ := hg
  simp only [sumBuckets] at hs
  refine ⟨⟨h2, by omega⟩, ⟨h3, by omega⟩, ⟨h4, by omega⟩⟩

/-- After `setRates` on a record with non-negative total, each stored rate
equals the corresponding bucket divided by `max(total_trials, 1)`, rounded
half-up at the 4th decimal. -/
lemma setRates_formula {x : Cohort} (hx : 0 ≤ x.total_trials) :
    (setRates x).conversion_rate =
      (roundHalfUp (((setRates x).converted : ℚ) /
        ((max (setRates x).total_trials 1 : ℤ) : ℚ) * 10000) : ℚ) / 10000 ∧
    (setRates x).cancel_rate =
      (roundHalfUp (((setRates x).cancelled : ℚ) /
        ((max (setRates x).total_trials 1 : ℤ) : ℚ) * 10000) : ℚ) / 10000 ∧
    (setRates x).billing_rate =
      (roundHalfUp (((setRates x).billing_issue : ℚ) /
        ((max (setRates x).total_trials 1 : ℤ) : ℚ) * 10000) : ℚ) / 10000 := by
  refine ⟨?_, ?_, ?_⟩
  · rw [setRates_conversion_rate, setRates_converted, setRates_total, t_eq_max hx]
  · rw [setRates_cancel_rate, setRates_cancelled, setRates_total, t_eq_max hx]
  · rw [setRates_billing_rate, setRates_billing, setRates_total, t_eq_max hx]

/-- The zero record's rates satisfy the `max(total,1)` formula. -/
lemma cohortZero_rates :
    cohortZero.conversion_rate =
      (roundHalfUp ((cohortZero.converted : ℚ) /
        ((max cohortZero.total_trials 1 : ℤ) : ℚ) * 10000) : ℚ) / 10000 ∧
    cohortZero.cancel_rate =
      (roundHalfUp ((cohortZero.cancelled : ℚ) /
        ((max cohortZero.total_trials 1 : ℤ) : ℚ) * 10000) : ℚ) / 10000 ∧
    cohortZero.billing_rate =
      (roundHalfUp ((cohortZero.billing_issue : ℚ) /
        ((max cohortZero.total_trials 1 : ℤ) : ℚ) * 10000) : ℚ) / 10000 := by
  have hz : roundHalfUp ((0 : ℚ) / ((1 : ℤ) : ℚ) * 10000) = 0 := by
    apply roundHalfUp_eq <;> norm_num
  refine ⟨?_, ?_, ?_⟩ <;>
    simp only [cohortZero, Int.cast_zero, max_self, max_eq_right, zero_le_one,
      le_refl] <;>
    rw [hz] <;> norm_num

/-- Each stored rate of a consistently reachable record equals the rounded
`bucket / max(total_trials, 1)` quotient. -/
lemma consistent_rates {c : Cohort} (h : ConsistentReachable c) :
    c.conversion_rate =
      (roundHalfUp ((c.converted : ℚ) /
        ((max c.total_trials 1 : ℤ) : ℚ) * 10000) : ℚ) / 10000 ∧
    c.cancel_rate =
      (roundHalfUp ((c.cancelled : ℚ) /
        ((max c.total_trials 1 : ℤ) : ℚ) * 10000) : ℚ) / 10000 ∧
    c.billing_rate =
      (roundHalfUp ((c.billing_issue : ℚ) /
        ((max c.total_trials 1 : ℤ) : ℚ) * 10000) : ℚ) / 10000 := by
  cases h with
  | init => exact cohortZero_rates
  | stepNew prev ns hc hfalsy =>
      rename_i c0
      have hg := goodCohort_stepNew (consistent_good hc) prev ns hfalsy
      have hx : 0 ≤ (incNew ns (decPrev prev (bumpTotal "INITIAL_PURCHASE" prev c0))).total_trials := by
        simpa [applyCohort] using good_total_nonneg hg
      exact setRates_formula hx
  | stepMove et s ns hc hks hb =>
      rename_i c0
      have hg := goodCohort_stepMove (consistent_good hc) et ns hks hb
      have hx : 0 ≤ (incNew ns (decPrev (some s) (bumpTotal et (some s) c0))).total_trials := by
        simpa [applyCohort] using good_total_nonneg hg
      exact setRates_formula hx

/-- `total_trials` never decreases along any transaction sequence. -/
lemma reachable_total_mono {c0 c : Cohort} (h : ReachableFrom c0 c) :
    c0.total_trials ≤ c.total_trials := by
  induction h with
  | refl => exact le_rfl
  | step et prev ns _ ih =>
      rw [applyCohort_total]
      split_ifs <;> omega

/-- Each stored rate of any record reachable from the zeroed record — by
arbitrary webhook cohort transactions, consistent or not — equals the rounded
`bucket / max(total_trials, 1)` quotient: `total_trials` only ever
increments, so it stays non-negative and the code's `total_trials || 1`
denominator coincides with `max(total_trials, 1)`. -/
lemma reachable_rates {c : Cohort} (h : Reachable c) :
    c.conversion_rate =
      (roundHalfUp ((c.converted : ℚ) /
        ((max c.total_trials 1 : ℤ) : ℚ) * 10000) : ℚ) / 10000 ∧
    c.cancel_rate =
      (roundHalfUp ((c.cancelled : ℚ) /
        ((max c.total_trials 1 : ℤ) : ℚ) * 10000) : ℚ) / 10000 ∧
    c.billing_rate =
      (roundHalfUp ((c.billing_issue : ℚ) /
        ((max c.total_trials 1 : ℤ) : ℚ) * 10000) : ℚ) / 10000 := by
  have h' : ReachableFrom cohortZero c := h
  cases h' with
  | refl => exact cohortZero_rates
  | step et prev ns hr =>
      rename_i c0
      have htot : 0 ≤ (applyCohort et prev ns c0).total_trials := by
        have := reachable_total_mono (ReachableFrom.step et prev ns hr)
        simpa [cohortZero] using this
      have hx : 0 ≤ (incNew ns (decPrev prev (bumpTotal et prev c0))).total_trials := by
        simpa [applyCohort] using htot
      exact setRates_formula hx

/-! ## Calendar arithmetic -/

lemma civilOfDoe_bounds (doe : Nat) (h : doe ≤ 146096) :
    1 ≤ (civilOfDoe doe).2.1 ∧ (civilOfDoe doe).2.1 ≤ 12 ∧
    1 ≤ (civilOfDoe doe).2.2 ∧ (civilOfDoe doe).2.2 ≤ 31 := by
  unfold civilOfDoe
  dsimp only
  split_ifs <;> omega

lemma doe_bound (z : Int) :
    0 ≤ z - (Int.fdiv z 146097) * 146097 ∧
    z - (Int.fdiv z 146097) * 146097 < 146097 := by
  have h1 := Int.fmod_nonneg' z (show (0 : Int) < 146097 by norm_num)
  have h2 := Int.fmod_lt_of_pos z (show (0 : Int) < 146097 by norm_num)
  have h3 := Int.fmod_def z 146097
  constructor <;> omega

/-- The month and day components produced by `civilFromDays` are always a
valid month (1–12) and day (1–31). -/
lemma civilFromDays_md_bounds (z : Int) :
    1 ≤ (civilFromDays z).2.1 ∧ (civilFromDays z).2.1 ≤ 12 ∧
    1 ≤ (civilFromDays z).2.2 ∧ (civilFromDays z).2.2 ≤ 31 := by
  unfold civilFromDays
  dsimp only
  have hb := doe_bound (z + 719468)
  exact civilOfDoe_bounds _ (by omega)

lemma pad2_length : ∀ n < 100, (pad2 n).length = 2 := by decide

/-- The conversion rate written by a transaction, in terms of the written
record's own counters (the `total_trials || 1` denominator). -/
lemma conversion_rate_apply (et : String) (prev : Option String) (ns : String)
    (c : Cohort) :
    (applyCohort et prev ns c).conversion_rate =
      (roundHalfUp (((applyCohort et prev ns c).converted : ℚ) /
        (((if (applyCohort et prev ns c).total_trials = 0 then 1
           else (applyCohort et prev ns c).total_trials) : ℤ) : ℚ) * 10000) : ℚ) / 10000 := by
  rw [show applyCohort et prev ns c =
        setRates (incNew ns (decPrev prev (bumpTotal et prev c))) from rfl]
  rw [setRates_conversion_rate, setRates_converted, setRates_total]

/-! ## Claim theorems -/

/-- C1 counterexample: from the zeroed record, a single `RENEWAL` transaction
for a user with no previous status is a webhook cohort transaction reaching a
record whose bucket sum (1) exceeds `total_trials` (0); the claimed invariant
fails for arbitrary transaction sequences. -/
theorem C1_cex_sum_exceeds_total :
    Reachable (applyCohort "RENEWAL" none "Converted" cohortZero) ∧
    (applyCohort "RENEWAL" none "Converted" cohortZero).total_trials <
      sumBuckets (applyCohort "RENEWAL" none "Converted" cohortZero) :=
  ⟨ReachableFrom.step "RENEWAL" none "Converted" ReachableFrom.refl, by decide⟩

/-- C1 (amended): for every cohort record reachable from the zeroed record by
consistent webhook cohort transactions — each transaction either carries event
type `INITIAL_PURCHASE` with no (falsy) previous status, or moves a previous
status that is one of the four recognized ones and whose bucket currently
counts at least one user — the sum
`in_trial + converted + cancelled + billing_issue` is at most
`total_trials`. -/
theorem C1_sum_le_total {c : Cohort} (h : ConsistentReachable c) :
    sumBuckets c ≤ c.total_trials :=
  (consistent_good h).2

/-- C1 witness: the amended invariant at the concrete record reached by one
`INITIAL_PURCHASE` transaction. -/
theorem C1_sum_le_total_witness :
    ConsistentReachable cohortOneTrial ∧
    sumBuckets cohortOneTrial ≤ cohortOneTrial.total_trials :=
  have hr : ConsistentReachable cohortOneTrial :=
    ConsistentReachable.stepNew none "Still in Trial" ConsistentReachable.init rfl
  ⟨hr, C1_sum_le_total hr⟩

/-- C4: applying the same event's cohort transition a second time against the
state left by the first — the previous status equals the new status, the
bucket matching that status counts at least one user, and the previous status
is present so the new-trial increment cannot fire — leaves every bucket
counter and `total_trials` unchanged. -/
theorem C4_idempotent_reapply (et : String) {s : String} (c : Cohort)
    (hks : knownStatus s) (hb : 1 ≤ bucketOf c s) :
    (applyCohort et (some s) s c).total_trials = c.total_trials ∧
    (applyCohort et (some s) s c).in_trial = c.in_trial ∧
    (applyCohort et (some s) s c).converted = c.converted ∧
    (applyCohort et (some s) s c).cancelled = c.cancelled ∧
    (applyCohort et (some s) s c).billing_issue = c.billing_issue := by
  rcases hks with h | h | h | h <;> subst h <;>
    simp [applyCohort, bucketOf, jsTruthy] at hb ⊢ <;> omega

/-- C4 witness: reapplying the `INITIAL_PURCHASE` trial-start event against
the record it produced moves the `Still in Trial` bucket down and up again,
changing nothing. -/
theorem C4_idempotent_reapply_witness :
    knownStatus "Still in Trial" ∧ 1 ≤ bucketOf cohortOneTrial "Still in Trial" ∧
    ((applyCohort "INITIAL_PURCHASE" (some "Still in Trial") "Still in Trial"
        cohortOneTrial).total_trials = cohortOneTrial.total_trials ∧
      (applyCohort "INITIAL_PURCHASE" (some "Still in Trial") "Still in Trial"
        cohortOneTrial).in_trial = cohortOneTrial.in_trial ∧
      (applyCohort "INITIAL_PURCHASE" (some "Still in Trial") "Still in Trial"
        cohortOneTrial).converted = cohortOneTrial.converted ∧
      (applyCohort "INITIAL_PURCHASE" (some "Still in Trial") "Still in Trial"
        cohortOneTrial).cancelled = cohortOneTrial.cancelled ∧
      (applyCohort "INITIAL_PURCHASE" (some "Still in Trial") "Still in Trial"
        cohortOneTrial).billing_issue = cohortOneTrial.billing_issue) :=
  ⟨Or.inl rfl, by decide,
   C4_idempotent_reapply "INITIAL_PURCHASE" cohortOneTrial (Or.inl rfl) (by decide)⟩

/-- C5: starting from the zeroed record, or from any record with non-negative
bucket counters, each of the four bucket counters `in_trial`, `converted`,
`cancelled`, `billing_issue` stays non-negative after every webhook cohort
transaction, for all choices of event type and previous and new status. -/
theorem C5_buckets_nonneg {c0 c : Cohort} (h0 : nonnegCounters c0)
    (h : ReachableFrom c0 c) : nonnegCounters c :=
  reachableFrom_nonneg h0 h

/-- C5 witness: non-negativity after a clamped decrement of an empty bucket
from the zeroed record. -/
theorem C5_buckets_nonneg_witness :
    nonnegCounters cohortZero ∧
    nonnegCounters
      (applyCohort "CANCELLATION" (some "Still in Trial") "Cancelled" cohortZero) :=
  ⟨cohortZero_nonneg,
   C5_buckets_nonneg cohortZero_nonneg
     (ReachableFrom.step "CANCELLATION" (some "Still in Trial") "Cancelled"
        ReachableFrom.refl)⟩

/-- C6: a single webhook cohort transaction adds exactly 1 to `total_trials`
precisely when the event type is `INITIAL_PURCHASE` and the user had no
(falsy) previous status, and leaves it unchanged otherwise; consequently
`total_trials` never decreases across any sequence of transactions on one
cohort record. -/
theorem C6_total_trials_monotone :
    (∀ (et : String) (prev : Option String) (ns : String) (c : Cohort),
        (applyCohort et prev ns c).total_trials =
          c.total_trials +
            (if et = "INITIAL_PURCHASE" ∧ jsTruthy prev = false then 1 else 0)) ∧
    (∀ (c0 c : Cohort), ReachableFrom c0 c → c0.total_trials ≤ c.total_trials) :=
  ⟨applyCohort_total, fun _ _ h => reachable_total_mono h⟩

/-- C6 witness: the step characterization at a new trial and monotonicity
along a one-step sequence. -/
theorem C6_total_trials_monotone_witness :
    ((applyCohort "INITIAL_PURCHASE" none "Still in Trial" cohortZero).total_trials =
      cohortZero.total_trials +
        (if "INITIAL_PURCHASE" = "INITIAL_PURCHASE" ∧
            jsTruthy (none : Option String) = false then 1 else 0)) ∧
    cohortZero.total_trials ≤
      (applyCohort "RENEWAL" (some "Converted") "Converted" cohortZero).total_trials :=
  ⟨C6_total_trials_monotone.1 "INITIAL_PURCHASE" none "Still in Trial" cohortZero,
   C6_total_trials_monotone.2 cohortZero _
     (ReachableFrom.step "RENEWAL" (some "Converted") "Converted" ReachableFrom.refl)⟩

/-- C3 counterexample: the reachable record `cohortOverConverted`
(`converted = 2`, `total_trials = 1`) stores `conversion_rate = 2`, so the
claimed bound `rate ≤ 1` fails for arbitrary reachable states. -/
theorem C3_cex_rate_above_one :
    Reachable cohortOverConverted ∧
    cohortOverConverted.conversion_rate = 2 ∧
    ¬ (cohortOverConverted.conversion_rate ≤ 1) := by
  have h2 : cohortOverConverted.conversion_rate = 2 := by
    unfold cohortOverConverted
    rw [conversion_rate_apply]
    rw [(by decide : (applyCohort "RENEWAL" none "Converted"
          (applyCohort "INITIAL_PURCHASE" none "Converted" cohortZero)).converted = 2)]
    rw [(by decide : (applyCohort "RENEWAL" none "Converted"
          (applyCohort "INITIAL_PURCHASE" none "Converted" cohortZero)).total_trials = 1)]
    norm_num
    rw [(roundHalfUp_eq (by norm_num) (by norm_num) :
          roundHalfUp (20000 : ℚ) = 20000)]
    norm_num
  refine ⟨ReachableFrom.step _ _ _ (ReachableFrom.step _ _ _ ReachableFrom.refl),
    h2, ?_⟩
  rw [h2]; norm_num

/-- C3 (amended): after every webhook cohort transaction — on every record
reachable from the zeroed record, consistent or not — each stored rate
equals the corresponding bucket counter divided by `max(total_trials, 1)`,
rounded half-up at the 4th decimal, and each rate is non-negative; the
additional bound `rate ≤ 1` holds whenever the record is consistently
reachable (every bucket then lies between 0 and `total_trials`), but not for
arbitrary reachable states. -/
theorem C3_rates (c : Cohort) (h : Reachable c) :
    (c.conversion_rate =
        (roundHalfUp ((c.converted : ℚ) /
          ((max c.total_trials 1 : ℤ) : ℚ) * 10000) : ℚ) / 10000 ∧
      c.cancel_rate =
        (roundHalfUp ((c.cancelled : ℚ) /
          ((max c.total_trials 1 : ℤ) : ℚ) * 10000) : ℚ) / 10000 ∧
      c.billing_rate =
        (roundHalfUp ((c.billing_issue : ℚ) /
          ((max c.total_trials 1 : ℤ) : ℚ) * 10000) : ℚ) / 10000) ∧
    (0 ≤ c.conversion_rate ∧ 0 ≤ c.cancel_rate ∧ 0 ≤ c.billing_rate) ∧
    (ConsistentReachable c →
      c.conversion_rate ≤ 1 ∧ c.cancel_rate ≤ 1 ∧ c.billing_rate ≤ 1) := by
  obtain ⟨e1, e2, e3⟩ := reachable_rates h
  obtain ⟨h1, h2, h3, h4⟩ := reachableFrom_nonneg cohortZero_nonneg h
  have ht : (1 : ℤ) ≤ max c.total_trials 1 := le_max_right _ _
  refine ⟨⟨e1, e2, e3⟩,
    ⟨by rw [e1]; exact rateVal_nonneg h2 ht,
     by rw [e2]; exact rateVal_nonneg h3 ht,
     by rw [e3]; exact rateVal_nonneg h4 ht⟩, ?_⟩
  intro hc
  obtain ⟨⟨hb1, hb1t⟩, ⟨hb2, hb2t⟩, ⟨hb3, hb3t⟩⟩ := good_bucket_facts (consistent_good hc)
  exact ⟨by rw [e1]; exact (rateVal_bounds hb1 (le_trans hb1t (le_max_left _ _)) ht).2,
         by rw [e2]; exact (rateVal_bounds hb2 (le_trans hb2t (le_max_left _ _)) ht).2,
         by rw [e3]; exact (rateVal_bounds hb3 (le_trans hb3t (le_max_left _ _)) ht).2⟩

/-- C3 witness: reachability, non-negativity and the consistent-case upper
bound at the concrete one-trial record. -/
theorem C3_rates_witness :
    Reachable cohortOneTrial ∧ ConsistentReachable cohortOneTrial ∧
    0 ≤ cohortOneTrial.conversion_rate ∧ cohortOneTrial.conversion_rate ≤ 1 :=
  have hre : Reachable cohortOneTrial :=
    ReachableFrom.step "INITIAL_PURCHASE" none "Still in Trial" ReachableFrom.refl
  have hc : ConsistentReachable cohortOneTrial :=
    ConsistentReachable.stepNew none "Still in Trial" ConsistentReachable.init rfl
  ⟨hre, hc, (C3_rates cohortOneTrial hre).2.1.1,
   ((C3_rates cohortOneTrial hre).2.2 hc).1⟩

/-- C2 counterexample: a production `RENEWAL` with no user identifier is
answered with the 400 `{status:"error", reason:"missing app_user_id"}`
response (and indeed no write), not with 200 `"skipped"` as claimed. -/
theorem C2_cex_missing_user_id_is_400 :
    processWebhook none false none none eventNoUser =
      ⟨.invalid "missing app_user_id", none, none⟩ ∧
    httpStatus (processWebhook none false none none eventNoUser).response = 400 ∧
    jsonStatus (processWebhook none false none none eventNoUser).response = "error" ∧
    ¬ (httpStatus (processWebhook none false none none eventNoUser).response = 200 ∧
       jsonStatus (processWebhook none false none none eventNoUser).response =
         "skipped") := by
  refine ⟨by decide, by decide, by decide, ?_⟩
  intro hc
  exact absurd hc.1 (by decide)

/-- C2 (amended): for every POST webhook request whose extracted user
identifier is falsy (neither `app_user_id` nor `original_app_user_id`
truthy) and whose extracted environment is not `"SANDBOX"`, the handler
responds with HTTP 400 and status `"error"` (reason `missing app_user_id`)
and performs no store write: no user record and no cohort record is
mutated. -/
theorem C2_missing_user_id_rejected (pathSlug : Option String)
    (userExists : Bool) (ss st : Option String) (e : WebhookEvent)
    (henv : jsOrDefault e.environment "PRODUCTION" ≠ "SANDBOX")
    (hid : jsTruthy (jsOr e.app_user_id (jsOr e.original_app_user_id none)) = false) :
    processWebhook pathSlug userExists ss st e =
      ⟨.invalid "missing app_user_id", none, none⟩ := by
  simp only [processWebhook]
  rw [if_neg henv, if_pos hid]

/-- C2 witness: the 400 rejection at the concrete no-user-id event. -/
theorem C2_missing_user_id_rejected_witness :
    jsOrDefault eventNoUser.environment "PRODUCTION" ≠ "SANDBOX" ∧
    jsTruthy (jsOr eventNoUser.app_user_id
      (jsOr eventNoUser.original_app_user_id none)) = false ∧
    processWebhook (some "girlwalk") false none none eventNoUser =
      ⟨.invalid "missing app_user_id", none, none⟩ :=
  ⟨by decide, by decide,
   C2_missing_user_id_rejected (some "girlwalk") false none none eventNoUser
     (by decide) (by decide)⟩

/-- C7: the classifier maps `INITIAL_PURCHASE` to `Still in Trial` exactly on
period type `TRIAL` and to `Converted` otherwise; `RENEWAL` to `Converted`;
`CANCELLATION` to `Billing Issue` exactly on cancel reason `BILLING_ERROR` or
`CUSTOMER_SUPPORT` and to `Cancelled` otherwise (including empty);
`BILLING_ISSUE` to `Billing Issue`; `EXPIRATION` to `Cancelled`;
`UNCANCELLATION` to `Still in Trial`; and every other event type to the
no-op `none`. -/
theorem C7_classifier_table :
    ∀ (et cr pt : String),
      classifyFromEvent et cr pt =
        (if et = "INITIAL_PURCHASE" then
          some (if pt = "TRIAL" then "Still in Trial" else "Converted")
        else if et = "RENEWAL" then some "Converted"
        else if et = "CANCELLATION" then
          (if cr = "BILLING_ERROR" ∨ cr = "CUSTOMER_SUPPORT"
           then some "Billing Issue" else some "Cancelled")
        else if et = "BILLING_ISSUE" then some "Billing Issue"
        else if et = "EXPIRATION" then some "Cancelled"
        else if et = "UNCANCELLATION" then some "Still in Trial"
        else none) := by
  intro et cr pt
  unfold classifyFromEvent
  split <;> simp_all

/-- C8 counterexample: a user record whose stored `trial_start_date` is the
non-null empty string is overwritten by the event's derived cohort key —
JS truthiness treats `""` as absent — refuting "never overwritten whenever
non-null" at this input. -/
theorem C8_cex_empty_string_overwritten :
    (processWebhook (some "girlwalk") true (some "Still in Trial") (some "")
        eventRenewalU1).userWrite =
      some ⟨"Converted", "com.tangentapps.girlwalk", some "2023-11-14",
        some "RENEWAL"⟩ ∧
    (some "" : Option String) ≠ none ∧
    (some "2023-11-14" : Option String) ≠ some "" := by decide

/-- C8 (amended): the `trial_start_date` written back by the webhook is
exactly `trialStartDateOf`, which keeps the stored value whenever the user
record exists and the stored value is truthy (non-null and non-empty), and
falls back to the cohort key derived from the event's purchase timestamp
when no record exists, the stored value is null, or the stored value is the
empty string. -/
theorem C8_trial_start_date_first_write_wins :
    (∀ (pathSlug : Option String) (userExists : Bool) (ss st : Option String)
        (e : WebhookEvent) (uw : UserWrite),
        (processWebhook pathSlug userExists ss st e).userWrite = some uw →
        uw.trial_start_date =
          trialStartDateOf userExists st
            (msToDateKey (match e.purchased_at_ms with | some 0 => none | x => x))) ∧
    (∀ (st td : Option String) (d : String), st = some d → d ≠ "" →
        trialStartDateOf true st td = some d) ∧
    (∀ (st td : Option String), trialStartDateOf false st td = td) ∧
    (∀ (td : Option String), trialStartDateOf true none td = td) ∧
    (∀ (td : Option String), trialStartDateOf true (some "") td = td) := by
  refine ⟨?_, ?_, fun st td => rfl, fun td => rfl, fun td => rfl⟩
  · intro pathSlug userExists ss st e uw h
    simp only [processWebhook] at h
    repeat' split at h
    all_goals (try simp_all)
    all_goals (cases h; rfl)
  · intro st td d h1 h2
    subst h1
    simp [trialStartDateOf, jsOr, jsTruthy, h2]

/-- C8 witness: first-write-wins at a concrete stored date. -/
theorem C8_trial_start_date_first_write_wins_witness :
    ((processWebhook (some "girlwalk") true (some "Still in Trial")
        (some "2020-01-01") eventRenewalU1).userWrite =
      some ⟨"Converted", "com.tangentapps.girlwalk", some "2020-01-01",
        some "RENEWAL"⟩) ∧
    (⟨"Converted", "com.tangentapps.girlwalk", some "2020-01-01",
        some "RENEWAL"⟩ : UserWrite).trial_start_date =
      trialStartDateOf true (some "2020-01-01")
        (msToDateKey (match eventRenewalU1.purchased_at_ms with
                      | some 0 => none | x => x)) ∧
    trialStartDateOf true (some "2020-01-01") (some "2023-11-14") =
      some "2020-01-01" :=
  ⟨by decide,
   C8_trial_start_date_first_write_wins.1 (some "girlwalk") true
     (some "Still in Trial") (some "2020-01-01") eventRenewalU1 _ (by decide),
   C8_trial_start_date_first_write_wins.2.1 (some "2020-01-01")
     (some "2023-11-14") "2020-01-01" rfl (by decide)⟩

/-- C9: cohort key derivation maps epoch millisecond 1700000000000 to the UTC
calendar date `2023-11-14`, maps 0 and null to the absent value, and for
every non-absent input produces the year's decimal digits followed by
zero-padded two-digit month and day (a valid UTC Gregorian month 1–12 and
day 1–31), all computed from the UTC day number `⌊ms / 86400000⌋`. -/
theorem C9_msToDateKey_utc :
    msToDateKey (some 1700000000000) = some "2023-11-14" ∧
    msToDateKey (some 0) = none ∧
    msToDateKey none = none ∧
    (∀ v : Int, v ≠ 0 →
      msToDateKey (some v) =
        some (toString (civilFromDays (Int.fdiv v 86400000)).1 ++ "-" ++
          pad2 (civilFromDays (Int.fdiv v 86400000)).2.1 ++ "-" ++
          pad2 (civilFromDays (Int.fdiv v 86400000)).2.2) ∧
      1 ≤ (civilFromDays (Int.fdiv v 86400000)).2.1 ∧
      (civilFromDays (Int.fdiv v 86400000)).2.1 ≤ 12 ∧
      1 ≤ (civilFromDays (Int.fdiv v 86400000)).2.2 ∧
      (civilFromDays (Int.fdiv v 86400000)).2.2 ≤ 31 ∧
      (pad2 (civilFromDays (Int.fdiv v 86400000)).2.1).length = 2 ∧
      (pad2 (civilFromDays (Int.fdiv v 86400000)).2.2).length = 2) := by
  refine ⟨by decide, rfl, rfl, ?_⟩
  intro v hv
  obtain ⟨m1, m2, d1, d2⟩ := civilFromDays_md_bounds (Int.fdiv v 86400000)
  refine ⟨?_, m1, m2, d1, d2, pad2_length _ (by omega), pad2_length _ (by omega)⟩
  simp [msToDateKey, hv]

/-- C9 witness: the structural clause applied at the concrete timestamp
`-86400000` (one day before the epoch, giving `1969-12-31`). -/
theorem C9_msToDateKey_utc_witness :
    (-86400000 : Int) ≠ 0 ∧
    msToDateKey (some (-86400000)) =
      some (toString (civilFromDays (Int.fdiv (-86400000) 86400000)).1 ++ "-" ++
        pad2 (civilFromDays (Int.fdiv (-86400000) 86400000)).2.1 ++ "-" ++
        pad2 (civilFromDays (Int.fdiv (-86400000) 86400000)).2.2) :=
  ⟨by decide, (C9_msToDateKey_utc.2.2.2 (-86400000) (by decide)).1⟩

/-- C10: the sandbox skip fires precisely on the exact extracted environment
string `"SANDBOX"`: such a request is answered 200 `"skipped"` with no store
write, a request with an absent environment defaults to `"PRODUCTION"`, and
any other value (e.g. `"TEST"`) never produces the sandbox skip and proceeds
through the rest of the pipeline. -/
theorem C10_sandbox_skip_exact (pathSlug : Option String) (userExists : Bool)
    (ss st : Option String) (e : WebhookEvent) :
    (jsOrDefault e.environment "PRODUCTION" = "SANDBOX" →
        processWebhook pathSlug userExists ss st e =
          ⟨.skipped "sandbox", none, none⟩) ∧
    ((processWebhook pathSlug userExists ss st e).response = .skipped "sandbox" →
        jsOrDefault e.environment "PRODUCTION" = "SANDBOX") ∧
    (e.environment = none → jsOrDefault e.environment "PRODUCTION" = "PRODUCTION") ∧
    jsOrDefault (some "TEST") "PRODUCTION" ≠ "SANDBOX" := by
  refine ⟨?_, ?_, ?_, by decide⟩
  · intro h
    simp only [processWebhook]
    rw [if_pos h]
  · intro h
    by_contra hne
    simp only [processWebhook] at h
    rw [if_neg hne] at h
    repeat' split at h
    all_goals simp_all
  · intro h
    rw [h]
    rfl

/-- C10 witness: the sandbox skip at a concrete sandbox event, and the
default environment of an event with no environment field. -/
theorem C10_sandbox_skip_exact_witness :
    processWebhook (some "girlwalk") false none none eventSandboxTrial =
      ⟨.skipped "sandbox", none, none⟩ ∧
    jsOrDefault (⟨none, none, none, none, none, none, none, none⟩ :
      WebhookEvent).environment "PRODUCTION" = "PRODUCTION" :=
  ⟨(C10_sandbox_skip_exact (some "girlwalk") false none none eventSandboxTrial).1
     (by decide),
   (C10_sandbox_skip_exact none false none none
     ⟨none, none, none, none, none, none, none, none⟩).2.2.1 rfl⟩

end TrialExit
